import Mathlib

/-!
Shallow embedding of the USB-SCAN repository (src/usb.py and src/USB-SCAN.py)
and proofs about its specification claims.

Python strings are modelled as `List Char`; a Python value that may be `None`
or a string is `Option (List Char)`; a Python `dict` used as a device record is
a partial map from key strings to such values.  Code that can raise is
embedded in `Except PyErr`; a `try/except Exception` block around an
expression becomes the total function `tryOr`.
-/

namespace UsbScan

/-- A Python string: a list of characters. -/
abbrev Str : Type := List Char

/-- The embedding of an arbitrary raised Python exception (the code never
inspects the exception object, so it carries no data). -/
abbrev PyErr : Type := Unit

/-- A Python value that is either `None` or a string. -/
abbrev PyVal : Type := Option Str

/-- A device record: a `dict` mapping field-name strings to values.  `none`
means the key is absent; `some none` means the key is present with value
`None`; `some (some s)` means the key is present with string value `s`. -/
abbrev Record : Type := Str → Option PyVal

/-- `try: x except Exception: d` around an expression `x`. -/
def tryOr (x : Except PyErr α) (d : α) : α :=
  match x with
  | Except.ok a => a
  | Except.error _ => d

/-- Python helper `s(x)` from src/usb.py line 46: `"" if x is None else str(x)`. -/
def sOf : Option Str → Str
  | none => []
  | some v => v

/-- Truthiness of a Python optional-string value: `None` and `""` are falsy. -/
def pyTruthyV : Option Str → Bool
  | none => false
  | some v => !v.isEmpty

/-- Python `a or b` on optional-string values: `a` if truthy, else `b`. -/
def pyOr (a b : Option Str) : Option Str :=
  if pyTruthyV a then a else b

/-- Python `a or ""` evaluated as a string (used as `dev.PNPClass or ""`). -/
def pyOrEmpty (a : Option Str) : Str :=
  if pyTruthyV a then sOf a else []

/-- Python `needle in hay` substring test on strings. -/
def pyIn (needle hay : Str) : Bool :=
  decide (needle <:+: hay)

/-- The whitespace characters stripped by Python `str.strip()`. -/
def isPySpace (c : Char) : Bool :=
  c = ' ' || c = '\t' || c = '\n' || c = '\r' || c = '\x0b' || c = '\x0c'

/-- Python `str.strip()`: drop whitespace from both ends. -/
def pyStrip (s : Str) : Str :=
  ((s.dropWhile isPySpace).reverse.dropWhile isPySpace).reverse

/-- Python `str.lower()` (ASCII case folding suffices for the answers used). -/
def pyLower (s : Str) : Str :=
  s.map Char.toLower

/-- Worker for `splitlines`: accumulates the current line (reversed). -/
def splitlinesGo (acc : Str) : Str → List Str
  | [] => [acc.reverse]
  | '\r' :: '\n' :: [] => [acc.reverse]
  | '\r' :: '\n' :: c :: rest => acc.reverse :: splitlinesGo [] (c :: rest)
  | '\r' :: [] => [acc.reverse]
  | '\r' :: c :: rest =>
    if c = '\n' then
      match rest with
      | [] => [acc.reverse]
      | d :: rest2 => acc.reverse :: splitlinesGo [] (d :: rest2)
    else acc.reverse :: splitlinesGo [] (c :: rest)
  | '\n' :: [] => [acc.reverse]
  | '\n' :: c :: rest => acc.reverse :: splitlinesGo [] (c :: rest)
  | c :: rest => splitlinesGo (c :: acc) rest

/-- Python `str.splitlines()` restricted to the `\n`, `\r`, `\r\n` line
boundaries (the only ones that occur in the program's inputs); the empty
string yields no lines and a trailing line break yields no empty last line. -/
def splitlines (s : Str) : List Str :=
  if s.isEmpty then [] else splitlinesGo [] s

/-- Python `enumerate(xs, start)`. -/
def pyEnumerate (start : Nat) : List α → List (Nat × α)
  | [] => []
  | x :: xs => (start, x) :: pyEnumerate (start + 1) xs

/-- A record built from a Python `dict` literal (an association list;
lookup of a key returns its value, `none` if the key is absent). -/
def recOfList (l : List (Str × PyVal)) : Record :=
  fun k => (l.find? (fun p => decide (p.1 = k))).map (fun p => p.2)

/-- `html.escape` applied to one character (quote=True): `&`, `<`, `>`, `"`
and the single quote are replaced by their entities, all other characters are
kept.  Since Python's `html.escape` replaces `&` first and the later
replacements introduce no further `&`, `<`, `>`, `"` or quote characters, the
sequence of `str.replace` calls in the library function is exactly this
character-by-character map. -/
def escapeChar (c : Char) : Str :=
  if c = '&' then ("&amp;".data)
  else if c = '<' then ("&lt;".data)
  else if c = '>' then ("&gt;".data)
  else if c = '"' then ("&quot;".data)
  else if c = '\'' then ("&#x27;".data)
  else [c]

/-- `html.escape(s, quote=True)`, bound in src/usb.py line 191 as `safe`. -/
def escapeHtml (s : Str) : Str :=
  (s.map escapeChar).flatten

/-- Decimal rendering of a natural number, as Python `str`/f-string
interpolation renders a nonnegative `int`. -/
def natStr (n : Nat) : Str :=
  (Nat.repr n).data

end UsbScan

namespace UsbScan

/-! ## Device-record field keys (src/usb.py) -/

def backendKey : Str := "backend".data
def vendorIdKey : Str := "vendor_id".data
def productIdKey : Str := "product_id".data
def manufacturerKey : Str := "manufacturer".data
def productKey : Str := "product".data
def serialNumberKey : Str := "serial_number".data
def nameKey : Str := "name".data
def deviceIdKey : Str := "device_id".data
def pnpDeviceIdKey : Str := "pnp_device_id".data
def serviceKey : Str := "service".data
def devnodeKey : Str := "devnode".data
def sysPathKey : Str := "sys_path".data
def busKey : Str := "bus".data
def addressKey : Str := "address".data
def lineKey : Str := "line".data
def textKey : Str := "text".data
def rawKey : Str := "raw".data

/-- The fixed tuple of structured field keys iterated by the report loop,
src/usb.py line 222, in source order. -/
def canonicalKeys : List Str :=
  [vendorIdKey, productIdKey, manufacturerKey, productKey, serialNumberKey,
   nameKey, deviceIdKey, pnpDeviceIdKey, serviceKey, devnodeKey, sysPathKey,
   busKey, addressKey]

/-- All keys the record loop (src/usb.py lines 219-232) ever reads. -/
def renderedKeys : List Str :=
  backendKey :: canonicalKeys ++ [lineKey, textKey, rawKey]

/-! ## Report renderer (src/usb.py `generate_html_report`, lines 190-242) -/

/-- Run metadata interpolated into the report: the four strings returned by
`now_iso()` plus the three `platform` strings read inside the renderer. -/
structure RunMeta where
  iso : Str
  date : Str
  time : Str
  tz : Str
  system : Str
  release : Str
  plat : Str

/-- One piece of a Python f-string: a literal, or a replacement field whose
expression evaluates to a string or raises. -/
inductive FPart where
  | lit : Str → FPart
  | expr : Except PyErr Str → FPart

/-- Evaluating an f-string: concatenate the literals and the expression
values left to right; a raising expression makes the whole f-string raise. -/
def fStringEval : List FPart → Except PyErr Str
  | [] => Except.ok []
  | FPart.lit s :: ps => Except.map (fun r => s ++ r) (fStringEval ps)
  | FPart.expr e :: ps =>
    Except.bind e (fun v => Except.map (fun r => v ++ r) (fStringEval ps))

/-- The replacement field created by the single-braced CSS rule on
src/usb.py line 206: inside the f-string, `.record { margin-bottom: ... }`
is parsed as the expression `margin-bottom` followed by a format spec, and
evaluating the undefined name `margin` raises `NameError` whenever the
renderer is called. -/
def marginBottomNameError : Except PyErr Str :=
  Except.error ()

/-- Python `len(records)` interpolated into the heading,
together with its surrounding text (src/usb.py line 215). -/
def countHeading (n : Nat) : Str :=
  ("Résumé des éléments trouvés : ".data) ++ natStr n ++ (" entrées".data)

/-- The header f-string of `generate_html_report` (src/usb.py lines 193-217),
split into its literal parts and replacement fields in evaluation order.
Doubled braces in the source denote literal braces (written here as
`\x7b`/`\x7d`); the single-braced `.record` rule is the raising replacement
field `marginBottomNameError`. -/
def headerFString (meta : RunMeta) (n : Nat) : List FPart :=
  [FPart.lit ("<!doctype html>\n<html lang=\"fr\">\n<head>\n<meta charset=\"utf-8\">\n<title>USB-SCAN — rapport ".data),
   FPart.expr (Except.ok (escapeHtml meta.iso)),
   FPart.lit ("</title>\n<style>\n  body \x7b font-family: Arial, sans-serif; margin: 20px; background:#f9f9fb; color:#222 \x7d\n  h1 \x7b color:#0b5394 \x7d\n  .meta \x7b margin-bottom: 1em; \x7d\n  table \x7b border-collapse: collapse; width: 100%; background: #fff; box-shadow: 0 0 6px rgba(0,0,0,0.04) \x7d\n  th, td \x7b border: 1px solid #e2e2e2; padding: 8px; text-align:left; font-size: 0.95rem \x7d\n  th \x7b background: #f2f6fb; \x7d\n  pre \x7b background:#f7f7f9; padding:8px; overflow:auto; \x7d\n  .record ".data),
   FPart.expr marginBottomNameError,
   FPart.lit ("\n</style>\n</head>\n<body>\n  <h1>USB-SCAN — Rapport</h1>\n  <div class=\"meta\">\n    <strong>Date :</strong> ".data),
   FPart.expr (Except.ok (escapeHtml meta.date)),
   FPart.lit (" &nbsp; <strong>Heure :</strong> ".data),
   FPart.expr (Except.ok (escapeHtml meta.time)),
   FPart.lit (" &nbsp; <strong>Timezone :</strong> ".data),
   FPart.expr (Except.ok (escapeHtml meta.tz)),
   FPart.lit ("<br>\n    <strong>Système :</strong> ".data),
   FPart.expr (Except.ok (escapeHtml meta.system)),
   FPart.lit (" ".data),
   FPart.expr (Except.ok (escapeHtml meta.release)),
   FPart.lit (" (".data),
   FPart.expr (Except.ok (escapeHtml meta.plat)),
   FPart.lit (")\n  </div>\n  <h2>Résumé des éléments trouvés : ".data),
   FPart.expr (Except.ok (natStr n)),
   FPart.lit (" entrées</h2>\n  <div>\n".data)]

/-- `html.escape` applied to a value taken from a record without the `s()`
guard (the `line`, `text` and `raw` renderings): on a present string it
escapes it, on `None` it raises (`None` has no `.replace`). -/
def escVal : PyVal → Except PyErr Str
  | none => Except.error ()
  | some v => Except.ok (escapeHtml v)

/-- Truthiness of `k in rec and rec[k]` (src/usb.py line 223). -/
def truthyAt (rec : Record) (k : Str) : Bool :=
  match rec k with
  | some (some v) => !v.isEmpty
  | _ => false

/-- The labeled line `f'<div><strong>{safe(k)}:</strong> {safe(s(rec[k]))}</div>'`
(src/usb.py line 224). -/
def fieldDiv (k v : Str) : Str :=
  ("<div><strong>".data) ++ escapeHtml k ++ (":</strong> ".data) ++
    escapeHtml v ++ ("</div>".data)

/-- The labeled line emitted for one structured field when it is present and
truthy (src/usb.py lines 223-224), and nothing otherwise. -/
def fieldLine (rec : Record) (k : Str) : Str :=
  if truthyAt rec k then fieldDiv k (sOf (Option.join (rec k))) else []

/-- The structured-fields portion of a record section: the loop over the
fixed key tuple (src/usb.py lines 222-224). -/
def fieldsPart (rec : Record) : Str :=
  (canonicalKeys.map (fieldLine rec)).flatten

/-- The `Entrée #i — backend: ...` header of a record section
(src/usb.py line 220). -/
def entryHeader (i : Nat) (rec : Record) : Str :=
  ("<div class=\"record\"><strong>Entrée #".data) ++ natStr i ++
    (" — backend: ".data) ++ escapeHtml (sOf (Option.join (rec backendKey))) ++
    ("</strong><br>".data)

/-- The `lsusb line` rendering (src/usb.py lines 226-227): emitted whenever
the `line` key is present, with `html.escape` applied to its value directly. -/
def linePart (rec : Record) : Except PyErr Str :=
  match rec lineKey with
  | none => Except.ok []
  | some v =>
    Except.map
      (fun e => ("<div><strong>lsusb line:</strong> <code>".data) ++ e ++ ("</code></div>".data))
      (escVal v)

/-- The `Text output` rendering (src/usb.py lines 228-229). -/
def textPart (rec : Record) : Except PyErr Str :=
  match rec textKey with
  | none => Except.ok []
  | some v =>
    Except.map
      (fun e => ("<div><strong>Text output:</strong><pre>".data) ++ e ++ ("</pre></div>".data))
      (escVal v)

/-- The `raw` rendering (src/usb.py lines 230-231). -/
def rawPart (rec : Record) : Except PyErr Str :=
  match rec rawKey with
  | none => Except.ok []
  | some v =>
    Except.map
      (fun e => ("<div><strong>raw:</strong> <code>".data) ++ e ++ ("</code></div>".data))
      (escVal v)

/-- The full section emitted for record number `i` (src/usb.py lines
219-232): entry header, structured field lines, then the `line`, `text` and
`raw` special renderings, then the closing tag. -/
def recordSection (i : Nat) (rec : Record) : Except PyErr Str :=
  Except.bind (linePart rec) (fun lp =>
    Except.bind (textPart rec) (fun tp =>
      Except.bind (rawPart rec) (fun rp =>
        Except.ok (entryHeader i rec ++ fieldsPart rec ++ lp ++ tp ++ rp ++ ("</div>".data)))))

/-- The footer template (src/usb.py lines 233-240), a plain string formatted
with `.format(time_iso=safe(scan_time_iso))`. -/
def footerText (meta : RunMeta) : Str :=
  ("\n  </div>\n  <footer style=\"margin-top:20px; font-size:0.9rem; color:#666\">\n    Généré par USB-SCAN — ".data) ++
    escapeHtml meta.iso ++ ("\n  </footer>\n</body>\n</html>\n".data)

/-- `generate_html_report` (src/usb.py lines 190-242): evaluate the header
f-string, render each record's section, join the parts with the footer, write
the file (`writeFails` models `Path(filename).write_text` raising) and return
the document text that is written.  (The Python function returns the
filename; the written document is the value of interest here.) -/
def generate_html_report (records : List Record) (meta : RunMeta)
    (writeFails : Bool) : Except PyErr Str :=
  Except.bind (fStringEval (headerFString meta records.length)) (fun hdr =>
    Except.bind ((pyEnumerate 1 records).mapM (fun p => recordSection p.1 p.2)) (fun secs =>
      if writeFails then Except.error ()
      else Except.ok (hdr ++ secs.flatten ++ footerText meta)))

/-- Extract the string of a non-raising rendering step (used to state
properties of sections that do render). -/
def exceptStr : Except PyErr Str → Str
  | Except.ok s => s
  | Except.error _ => []

/-! ## Backend probes (src/usb.py lines 17-174)

Each probe is embedded as a function of a `ScanEnv` describing the host: the
capability flags computed by the import-time `try` blocks, the outcome of
each fallible platform operation, and the outcome of each external command.
A probe returns `Except PyErr (List Record)`: an `Except.error` result would
mean an exception escaping the probe to its caller. -/

/-- The completed-process object returned by `subprocess.run` (only its
`stdout` attribute is ever read). -/
structure Proc where
  stdout : Str

/-- The argument list and keyword arguments of one `subprocess.run` call
site.  `textMode` is the `text=True` keyword; `timeout` is the `timeout`
keyword, `none` when the call site does not pass one. -/
structure SubprocCall where
  argv : List Str
  captureOutput : Bool
  textMode : Bool
  check : Bool
  timeout : Option Nat

/-- One device yielded by `usb.core.find(find_all=True)`
(src/usb.py lines 55-87).  `hexIds` is the computation
`(hex(dev.idVendor), hex(dev.idProduct))`, which the code guards with a
`try`; `sIds` is the fallback `(s(dev.idVendor), s(dev.idProduct))`.
`iManufacturer`, `iProduct`, `iSerialNumber` are the string-descriptor
indices (`0` is falsy); `manufacturerStr` etc. are the individually guarded
`usb.util.get_string` reads; `bus` and `address` are the
`getattr(dev, ..., '')` reads (never raising); `rawRepr` is `repr(dev)`. -/
structure PyusbDev where
  hexIds : Except PyErr (Str × Str)
  sIds : Str × Str
  bus : Str
  address : Str
  iManufacturer : Nat
  iProduct : Nat
  iSerialNumber : Nat
  manufacturerStr : Except PyErr Str
  productStr : Except PyErr Str
  serialStr : Except PyErr Str
  rawRepr : Str

/-- One pyudev device (src/usb.py lines 99-110): the six property reads
(`device.get` returns `None` for an absent property), plus `device_node`
(may be `None`) and `sys_path` (always a string). -/
structure UdevDev where
  idVendorId : Option Str
  idModelId : Option Str
  idVendorFromDatabase : Option Str
  idVendor : Option Str
  idModel : Option Str
  idSerialShort : Option Str
  idSerial : Option Str
  deviceNode : Option Str
  sysPath : Str

/-- One `Win32_PnPEntity` object (src/usb.py lines 151-160); each attribute
may be `None`. -/
structure WmiDev where
  pnpClass : Option Str
  deviceId : Option Str
  pnpDeviceId : Option Str
  name : Option Str
  manufacturer : Option Str
  service : Option Str

/-- The host as the probes observe it.  `usbFind`, `udevDevices` and
`wmiDevices` are `Except.error` when the enumeration call itself raises; a
raise in the middle of iterating one of these generators is caught by the
same enclosing handler with the records accumulated so far retained, which
is equivalent to enumerating only the successfully yielded prefix, so the
lists model the yielded devices.  `runProc` gives the outcome of a
`subprocess.run` invocation for each call site. -/
structure ScanEnv where
  HAS_PYUSB : Bool
  HAS_PYUDEV : Bool
  HAS_WMI : Bool
  usbFind : Except PyErr (List PyusbDev)
  udevDevices : Except PyErr (List UdevDev)
  wmiDevices : Except PyErr (List WmiDev)
  runProc : SubprocCall → Except PyErr Proc

/-- The host identity strings read from `platform`. -/
structure HostEnv where
  system : Str
  release : Str
  plat : Str

/-- The record built for one pyusb device (src/usb.py lines 57-87): the
hex ids guarded by a `try` with the `s(...)` fallback, the dict literal with
`manufacturer`, `product` and `serial_number` initialised to `None`, then the
three individually guarded string reads. -/
def pyusbRecord (dev : PyusbDev) : Record :=
  let ids := tryOr dev.hexIds dev.sIds
  let manu : PyVal :=
    tryOr (if dev.iManufacturer ≠ 0 then Except.map some dev.manufacturerStr
           else Except.ok none) none
  let prod : PyVal :=
    tryOr (if dev.iProduct ≠ 0 then Except.map some dev.productStr
           else Except.ok none) none
  let ser : PyVal :=
    tryOr (if dev.iSerialNumber ≠ 0 then Except.map some dev.serialStr
           else Except.ok none) none
  recOfList
    [(backendKey, some ("pyusb".data)),
     (vendorIdKey, some ids.1),
     (productIdKey, some ids.2),
     (busKey, some dev.bus),
     (addressKey, some dev.address),
     (manufacturerKey, manu),
     (productKey, prod),
     (serialNumberKey, ser),
     (rawKey, some dev.rawRepr)]

/-- The records `scan_with_pyusb` accumulates: nothing when pyusb is not
importable, otherwise one record per yielded device, with a raising
`usb.core.find` caught and yielding nothing (src/usb.py lines 50-90). -/
def pyusbRecords (e : ScanEnv) : List Record :=
  if e.HAS_PYUSB then
    tryOr (Except.map (fun devs => devs.map pyusbRecord) e.usbFind) []
  else []

/-- `scan_with_pyusb` (src/usb.py lines 50-90).  Every fallible operation in
its body sits inside a `try/except Exception` (embedded via `tryOr`), so the
body denotes a plain list, returned normally. -/
def scan_with_pyusb (e : ScanEnv) : Except PyErr (List Record) :=
  Except.ok (pyusbRecords e)

/-- The record built for one pyudev device (src/usb.py lines 100-109). -/
def udevRecord (d : UdevDev) : Record :=
  recOfList
    [(backendKey, some ("pyudev".data)),
     (vendorIdKey, d.idVendorId),
     (productIdKey, d.idModelId),
     (manufacturerKey, pyOr d.idVendorFromDatabase d.idVendor),
     (productKey, d.idModel),
     (serialNumberKey, pyOr d.idSerialShort d.idSerial),
     (devnodeKey, d.deviceNode),
     (sysPathKey, some d.sysPath)]

/-- The pyudev block of `scan_linux` (src/usb.py lines 96-112): skipped when
pyudev is not importable, and wrapped in `try/except: pass`. -/
def udevPart (e : ScanEnv) : List Record :=
  if e.HAS_PYUDEV then
    tryOr (Except.map (fun devs => devs.map udevRecord) e.udevDevices) []
  else []

/-- The `subprocess.run` call of the lsusb fallback (src/usb.py line 116). -/
def lsusbCall : SubprocCall :=
  { argv := [("lsusb".data)], captureOutput := true, textMode := true,
    check := false, timeout := none }

/-- The lsusb block of `scan_linux` (src/usb.py lines 114-125): one record
per stripped output line, nothing when stdout is empty, `try/except: pass`
around the whole block. -/
def lsusbPart (e : ScanEnv) : List Record :=
  tryOr
    (Except.map
      (fun p =>
        if p.stdout.isEmpty then []
        else
          (splitlines (pyStrip p.stdout)).map
            (fun line =>
              recOfList [(backendKey, some ("lsusb".data)),
                         (lineKey, some (pyStrip line))]))
      (e.runProc lsusbCall))
    []

/-- `scan_linux` (src/usb.py lines 93-129): pyudev records, then lsusb
records, then the pyusb records appended by `results.extend(...)`. -/
def scan_linux (e : ScanEnv) : Except PyErr (List Record) :=
  Except.bind (scan_with_pyusb e)
    (fun py => Except.ok (udevPart e ++ lsusbPart e ++ py))

/-- The `subprocess.run` call of `scan_macos` (src/usb.py lines 135-136). -/
def system_profilerCall : SubprocCall :=
  { argv := [("system_profiler".data), ("SPUSBDataType".data),
             ("-detailLevel".data), ("mini".data)],
    captureOutput := true, textMode := true, check := false, timeout := none }

/-- The system_profiler block of `scan_macos` (src/usb.py lines 134-140):
the whole stdout as one opaque text record, nothing when stdout is empty. -/
def profilerPart (e : ScanEnv) : List Record :=
  tryOr
    (Except.map
      (fun p =>
        if p.stdout.isEmpty then []
        else [recOfList [(backendKey, some ("system_profiler".data)),
                         (textKey, some p.stdout)]])
      (e.runProc system_profilerCall))
    []

/-- `scan_macos` (src/usb.py lines 132-142). -/
def scan_macos (e : ScanEnv) : Except PyErr (List Record) :=
  Except.bind (scan_with_pyusb e)
    (fun py => Except.ok (profilerPart e ++ py))

/-- The filter condition of the WMI loop (src/usb.py line 152):
`dev.PNPClass and "USB" in (dev.PNPClass or "") or
(dev.DeviceID and "USB" in dev.DeviceID)`, with Python's precedence
(`and` over `or`) and short-circuit truthiness. -/
def wmiCond (d : WmiDev) : Bool :=
  (pyTruthyV d.pnpClass && pyIn ("USB".data) (pyOrEmpty d.pnpClass)) ||
  (pyTruthyV d.deviceId && pyIn ("USB".data) (sOf d.deviceId))

/-- The record built for one matching WMI entity (src/usb.py lines
153-160); every attribute goes through `s(...)`. -/
def wmiRecord (d : WmiDev) : Record :=
  recOfList
    [(backendKey, some ("WMI".data)),
     (nameKey, some (sOf d.name)),
     (deviceIdKey, some (sOf d.deviceId)),
     (pnpDeviceIdKey, some (sOf d.pnpDeviceId)),
     (manufacturerKey, some (sOf d.manufacturer)),
     (serviceKey, some (sOf d.service))]

/-- The WMI block of `scan_windows` (src/usb.py lines 147-162). -/
def wmiPart (e : ScanEnv) : List Record :=
  if e.HAS_WMI then
    tryOr
      (Except.map (fun devs => (devs.filter wmiCond).map wmiRecord)
        e.wmiDevices)
      []
  else []

/-- The `subprocess.run` call of the wmic fallback (src/usb.py line 166). -/
def wmicCall : SubprocCall :=
  { argv := [("wmic".data), ("path".data), ("Win32_USBControllerDevice".data),
             ("get".data), ("Dependent".data)],
    captureOutput := true, textMode := true, check := false, timeout := none }

/-- The wmic block of `scan_windows` (src/usb.py lines 164-170). -/
def wmicPart (e : ScanEnv) : List Record :=
  tryOr
    (Except.map
      (fun p =>
        if p.stdout.isEmpty then []
        else [recOfList [(backendKey, some ("wmic_controller_device".data)),
                         (textKey, some p.stdout)]])
      (e.runProc wmicCall))
    []

/-- `scan_windows` (src/usb.py lines 145-174): WMI records, then the wmic
text record, then the pyusb records. -/
def scan_windows (e : ScanEnv) : Except PyErr (List Record) :=
  Except.bind (scan_with_pyusb e)
    (fun py => Except.ok (wmiPart e ++ wmicPart e ++ py))

/-- `scan_all` (src/usb.py lines 177-187): dispatch on `platform.system()`. -/
def scan_all (h : HostEnv) (e : ScanEnv) : Except PyErr (List Record) :=
  if h.system = ("Linux".data) then scan_linux e
  else if h.system = ("Darwin".data) then scan_macos e
  else if h.system = ("Windows".data) then scan_windows e
  else scan_with_pyusb e

/-! ## Capture timestamps and the artifact filename
(src/usb.py `now_iso` line 41-43 and `main` lines 251-257)

`now_iso()` returns `datetime.now().astimezone().isoformat()` (plus three
`strftime` strings).  An aware local timestamp is modelled by its calendar
fields and its UTC offset in hours and minutes; `isoformat` renders it as
`YYYY-MM-DDTHH:MM:SS[.ffffff]±HH:MM`, omitting the microsecond part exactly
when the microsecond is zero, as `datetime.isoformat` does. -/

structure Timestamp where
  year : Nat
  month : Nat
  day : Nat
  hour : Nat
  minute : Nat
  second : Nat
  microsecond : Nat
  offNeg : Bool
  offH : Nat
  offM : Nat
deriving DecidableEq

/-- The digit character of `d < 10`. -/
def digCh (d : Nat) : Char :=
  Char.ofNat (48 + d)

/-- The numeric value of a digit character. -/
def digVal (c : Char) : Nat :=
  c.toNat - 48

/-- Zero-padded two-digit rendering (for field values below 100). -/
def pad2 (n : Nat) : Str :=
  [digCh (n / 10), digCh (n % 10)]

/-- Zero-padded four-digit rendering (for years below 10000). -/
def pad4 (n : Nat) : Str :=
  [digCh (n / 1000), digCh (n / 100 % 10), digCh (n / 10 % 10), digCh (n % 10)]

/-- Zero-padded six-digit rendering (for microseconds below 1000000). -/
def pad6 (n : Nat) : Str :=
  [digCh (n / 100000), digCh (n / 10000 % 10), digCh (n / 1000 % 10),
   digCh (n / 100 % 10), digCh (n / 10 % 10), digCh (n % 10)]

/-- `datetime.isoformat()` for an aware local timestamp. -/
def isoformat (t : Timestamp) : Str :=
  pad4 t.year ++ ['-'] ++ pad2 t.month ++ ['-'] ++ pad2 t.day ++ ['T'] ++
  pad2 t.hour ++ [':'] ++ pad2 t.minute ++ [':'] ++ pad2 t.second ++
  (if t.microsecond = 0 then [] else '.' :: pad6 t.microsecond) ++
  [if t.offNeg then '-' else '+'] ++ pad2 t.offH ++ [':'] ++ pad2 t.offM

/-- The field ranges `datetime` guarantees (year 1..9999, month 1..12,
day 1..31, hour/minute/second/microsecond in range, offset below 24 hours). -/
def ValidTs (t : Timestamp) : Prop :=
  1 ≤ t.year ∧ t.year ≤ 9999 ∧ 1 ≤ t.month ∧ t.month ≤ 12 ∧
  1 ≤ t.day ∧ t.day ≤ 31 ∧ t.hour < 24 ∧ t.minute < 60 ∧ t.second < 60 ∧
  t.microsecond < 1000000 ∧ t.offH < 24 ∧ t.offM < 60

instance (t : Timestamp) : Decidable (ValidTs t) := by
  unfold ValidTs; infer_instance

/-- `iso.replace(":", "-")` (src/usb.py line 256): replacing a single
character is a character-by-character map. -/
def colonToDash (c : Char) : Char :=
  if c = ':' then '-' else c

/-- `safe_ts` of src/usb.py line 256. -/
def safeTs (iso : Str) : Str :=
  iso.map colonToDash

/-- The artifact filename `f"usb_scan_report_{safe_ts}.html"`
(src/usb.py line 257). -/
def mkFilename (iso : Str) : Str :=
  ("usb_scan_report_".data) ++ safeTs iso ++ (".html".data)

/-- Two-digit decoding, inverse of `pad2`. -/
def dec2 (a b : Char) : Nat :=
  10 * digVal a + digVal b

/-- Four-digit decoding, inverse of `pad4`. -/
def dec4 (a b c d : Char) : Nat :=
  1000 * digVal a + 100 * digVal b + 10 * digVal c + digVal d

/-- Six-digit decoding, inverse of `pad6`. -/
def dec6 (a b c d e f : Char) : Nat :=
  100000 * digVal a + 10000 * digVal b + 1000 * digVal c +
  100 * digVal d + 10 * digVal e + digVal f

/-- Decoder of a colon-replaced `isoformat` rendering back to the timestamp
fields; used to prove that the filename determines the timestamp. -/
def decTs : Str → Option Timestamp
  | y1 :: y2 :: y3 :: y4 :: _ :: m1 :: m2 :: _ :: d1 :: d2 :: _ ::
      h1 :: h2 :: _ :: n1 :: n2 :: _ :: s1 :: s2 :: rest =>
    match rest with
    | '.' :: u1 :: u2 :: u3 :: u4 :: u5 :: u6 :: sg :: o1 :: o2 :: _ :: o3 :: o4 :: [] =>
      some ⟨dec4 y1 y2 y3 y4, dec2 m1 m2, dec2 d1 d2, dec2 h1 h2,
            dec2 n1 n2, dec2 s1 s2, dec6 u1 u2 u3 u4 u5 u6,
            sg == '-', dec2 o1 o2, dec2 o3 o4⟩
    | sg :: o1 :: o2 :: _ :: o3 :: o4 :: [] =>
      some ⟨dec4 y1 y2 y3 y4, dec2 m1 m2, dec2 d1 d2, dec2 h1 h2,
            dec2 n1 n2, dec2 s1 s2, 0,
            sg == '-', dec2 o1 o2, dec2 o3 o4⟩
    | _ => none
  | _ => none

/-! ## The interactive loop (src/usb.py `main`, lines 245-279)

`main` is embedded as a function of the host, a clock assigning to each
cycle index its timestamp/scan environment, and the list of lines standard
input will provide for the continue/stop question.  `print` calls and the
`webbrowser` block (whose two nested `try/except` handlers swallow every
failure) produce no value and are omitted; `input()` on an exhausted stream
raises `EOFError`.  The result is `Except.ok ()` for a normal exit through
the `break`, and `Except.error ()` when an exception propagates out of
`main` — the script's top level (`if __name__ == "__main__": main()`) has no
handler around the call. -/

/-- One capture cycle's environment: the `now_iso()` timestamp with its
three `strftime` renderings, the scan environment, and whether
`Path(filename).write_text` would raise. -/
structure CycleEnv where
  t : Timestamp
  dateS : Str
  timeS : Str
  tzS : Str
  scan : ScanEnv
  writeFails : Bool

/-- The run metadata of one cycle as the renderer reads it. -/
def metaOf (h : HostEnv) (ce : CycleEnv) : RunMeta :=
  { iso := isoformat ce.t, date := ce.dateS, time := ce.timeS, tz := ce.tzS,
    system := h.system, release := h.release, plat := h.plat }

/-- The negative answers that end the loop (src/usb.py line 272). -/
def negAnswers : List Str :=
  [("n".data), ("no".data), ("non".data)]

/-- The body of one `while True` iteration up to the report call
(src/usb.py lines 251-258): take the timestamp, scan, build the filename,
and call `generate_html_report` with nothing catching its exceptions. -/
def mainCycle (h : HostEnv) (ce : CycleEnv) : Except PyErr Str :=
  let _fname := mkFilename (isoformat ce.t)
  Except.bind (scan_all h ce.scan) (fun recs =>
    generate_html_report recs (metaOf h ce) ce.writeFails)

/-- The `while True` loop of `main` (src/usb.py lines 250-276), driven by
the remaining standard-input lines for the `input()` call of line 271. -/
def mainLoop (h : HostEnv) (clock : Nat → CycleEnv) :
    Nat → List Str → Except PyErr Unit
  | k, [] => Except.bind (mainCycle h (clock k)) (fun _ => Except.error ())
  | k, a :: rest =>
    Except.bind (mainCycle h (clock k)) (fun _ =>
      if pyLower (pyStrip a) ∈ negAnswers then Except.ok ()
      else mainLoop h clock (k + 1) rest)

/-- `main()` as called at the script's top level, with no surrounding
handler (src/usb.py lines 278-279). -/
def mainProgram (h : HostEnv) (clock : Nat → CycleEnv)
    (inputs : List Str) : Except PyErr Unit :=
  mainLoop h clock 0 inputs

/-! ## Concrete sample inputs used as test points -/

/-- A record whose fields are the ones the probes actually store under
`line`, `text` and `raw`: present implies an actual string (never a present
key holding `None`), so the three unguarded `html.escape` calls of the
record loop cannot raise on it. -/
def WFRec (rec : Record) : Prop :=
  rec lineKey ≠ some none ∧ rec textKey ≠ some none ∧ rec rawKey ≠ some none

instance (rec : Record) : Decidable (WFRec rec) := by
  unfold WFRec; infer_instance

/-- Sample run metadata. -/
def demoMeta : RunMeta :=
  { iso := ("2024-01-02T03:04:05+01:00".data), date := ("02/01/2024".data),
    time := ("03:04:05".data), tz := ("CET".data), system := ("Linux".data),
    release := ("6.1.0".data), plat := ("Linux-6.1.0-x86_64".data) }

/-- A record carrying a markup-significant manufacturer string. -/
def scriptRec : Record :=
  recOfList [(backendKey, some ("pyusb".data)),
             (manufacturerKey, some ("<script>".data))]

/-- A record whose only populated fields are `vendor_id` and `product_id`
(spec end-to-end scenario 2). -/
def vpRec : Record :=
  recOfList [(vendorIdKey, some ("0x1d6b".data)),
             (productIdKey, some ("0x0002".data))]

/-- A record with only `vendor_id`. -/
def extraRecA : Record :=
  recOfList [(vendorIdKey, some ("0x1d6b".data))]

/-- The same record with an additional key outside the rendered set. -/
def extraRecB : Record :=
  recOfList [(vendorIdKey, some ("0x1d6b".data)),
             (("color".data), some ("blue".data))]

/-- A host on which every optional mechanism is absent and every external
command fails. -/
def demoScanEnv : ScanEnv :=
  { HAS_PYUSB := false, HAS_PYUDEV := false, HAS_WMI := false,
    usbFind := Except.error (), udevDevices := Except.error (),
    wmiDevices := Except.error (), runProc := fun _ => Except.error () }

/-- A sample Linux host identity. -/
def demoHost : HostEnv :=
  { system := ("Linux".data), release := ("6.1.0".data),
    plat := ("Linux-6.1.0-x86_64".data) }

/-- A sample capture timestamp. -/
def demoTs : Timestamp :=
  { year := 2024, month := 1, day := 2, hour := 3, minute := 4, second := 5,
    microsecond := 0, offNeg := false, offH := 1, offM := 0 }

/-- The same timestamp one second later. -/
def demoTs2 : Timestamp :=
  { year := 2024, month := 1, day := 2, hour := 3, minute := 4, second := 6,
    microsecond := 0, offNeg := false, offH := 1, offM := 0 }

/-- A clock handing every cycle the sample timestamp and host state. -/
def demoClock : Nat → CycleEnv :=
  fun _ => { t := demoTs, dateS := ("02/01/2024".data),
             timeS := ("03:04:05".data), tzS := ("CET".data),
             scan := demoScanEnv, writeFails := false }

end UsbScan

namespace UsbScan

/-! ## Lemmas -/

/-- The entity expansion of one character contains no markup-significant
character. -/
lemma escapeChar_no_markup (c : Char) :
    '<' ∉ escapeChar c ∧ '>' ∉ escapeChar c ∧ '"' ∉ escapeChar c := by
  unfold escapeChar
  split_ifs with h1 h2 h3 h4 h5 <;> simp_all [eq_comm]

/-- `html.escape` output contains no `<`, `>` or `"`. -/
lemma escapeHtml_no_markup (v : Str) :
    '<' ∉ escapeHtml v ∧ '>' ∉ escapeHtml v ∧ '"' ∉ escapeHtml v := by
  induction v with
  | nil => simp [escapeHtml]
  | cons c cs ih =>
    have hc := escapeChar_no_markup c
    simp only [escapeHtml, List.map_cons, List.flatten_cons, List.mem_append] at *
    exact ⟨fun h => h.elim hc.1 ih.1, fun h => h.elim hc.2.1 ih.2.1,
           fun h => h.elim hc.2.2 ih.2.2⟩

/-- An infix stays an infix under surrounding material. -/
lemma sandwich_extends (pre suf l m : Str) (h : l <:+: m) :
    l <:+: pre ++ m ++ suf := by
  obtain ⟨s, t, rfl⟩ := h
  exact ⟨pre ++ s, t ++ suf, by simp [List.append_assoc]⟩

/-- A raising-free `line` rendering. -/
lemma linePart_ok (rec : Record) (h : rec lineKey ≠ some none) :
    ∃ s, linePart rec = Except.ok s := by
  rcases hv : rec lineKey with _ | (_ | v)
  · exact ⟨[], by unfold linePart; rw [hv]⟩
  · exact absurd hv h
  · exact ⟨_, by unfold linePart; rw [hv]; rfl⟩

/-- A raising-free `text` rendering. -/
lemma textPart_ok (rec : Record) (h : rec textKey ≠ some none) :
    ∃ s, textPart rec = Except.ok s := by
  rcases hv : rec textKey with _ | (_ | v)
  · exact ⟨[], by unfold textPart; rw [hv]⟩
  · exact absurd hv h
  · exact ⟨_, by unfold textPart; rw [hv]; rfl⟩

/-- A raising-free `raw` rendering. -/
lemma rawPart_ok (rec : Record) (h : rec rawKey ≠ some none) :
    ∃ s, rawPart rec = Except.ok s := by
  rcases hv : rec rawKey with _ | (_ | v)
  · exact ⟨[], by unfold rawPart; rw [hv]⟩
  · exact absurd hv h
  · exact ⟨_, by unfold rawPart; rw [hv]; rfl⟩

/-- On a well-formed record the section renders without raising, as the
entry header, the structured field lines, the three special renderings and
the closing tag. -/
lemma recordSection_ok (i : Nat) (rec : Record) (h : WFRec rec) :
    recordSection i rec =
      Except.ok (entryHeader i rec ++ fieldsPart rec ++
        exceptStr (linePart rec) ++ exceptStr (textPart rec) ++
        exceptStr (rawPart rec) ++ ("</div>".data)) := by
  obtain ⟨s1, h1⟩ := linePart_ok rec h.1
  obtain ⟨s2, h2⟩ := textPart_ok rec h.2.1
  obtain ⟨s3, h3⟩ := rawPart_ok rec h.2.2
  simp [recordSection, h1, h2, h3, Except.bind, exceptStr]

/-- A present, truthy field renders as its labeled line. -/
lemma fieldLine_val (rec : Record) (k : Str) (v : Str)
    (hv : rec k = some (some v)) (hne : v ≠ []) :
    fieldLine rec k = fieldDiv k v := by
  simp [fieldLine, truthyAt, hv, sOf, Option.join, hne]

/-- An absent, `None` or empty field renders nothing. -/
lemma fieldLine_falsy (rec : Record) (k : Str)
    (h : truthyAt rec k = false) : fieldLine rec k = [] := by
  simp [fieldLine, h]

/-- Evaluating the header f-string raises: its fourth part is the
`margin-bottom` replacement field. -/
lemma headerFString_raises (meta : RunMeta) (n : Nat) :
    fStringEval (headerFString meta n) = Except.error () := rfl

/-- The renderer raises on every input: the `NameError` of the header
f-string (src/usb.py line 206) propagates out before any part of the
document is assembled or written. -/
lemma generate_html_report_raises (records : List Record) (meta : RunMeta)
    (w : Bool) : generate_html_report records meta w = Except.error () := rfl

/-- The dispatcher never raises: each branch is a probe that returns
normally. -/
lemma scan_all_ok (h : HostEnv) (e : ScanEnv) :
    ∃ l, scan_all h e = Except.ok l := by
  unfold scan_all
  split
  · exact ⟨_, rfl⟩
  · split
    · exact ⟨_, rfl⟩
    · split
      · exact ⟨_, rfl⟩
      · exact ⟨_, rfl⟩

/-- Every cycle raises: the scan succeeds, then the renderer raises. -/
lemma mainCycle_error (h : HostEnv) (ce : CycleEnv) :
    mainCycle h ce = Except.error () := by
  obtain ⟨l, hl⟩ := scan_all_ok h ce.scan
  simp only [mainCycle]
  rw [hl]
  rfl

/-- The loop raises in its first iteration, whatever input is available. -/
lemma mainLoop_error (h : HostEnv) (clock : Nat → CycleEnv) (k : Nat)
    (inputs : List Str) : mainLoop h clock k inputs = Except.error () := by
  cases inputs with
  | nil => unfold mainLoop; rw [mainCycle_error]; rfl
  | cons a rest => unfold mainLoop; rw [mainCycle_error]; rfl

/-! ## Digit lemmas for the filename theorem -/

lemma digVal_digCh {d : Nat} (h : d < 10) : digVal (digCh d) = d := by
  interval_cases d <;> rfl

lemma ctd_digCh {d : Nat} (h : d < 10) : colonToDash (digCh d) = digCh d := by
  interval_cases d <;> rfl

lemma ctdColon : colonToDash ':' = '-' := rfl

lemma ctdDash : colonToDash '-' = '-' := rfl

lemma ctdT : colonToDash 'T' = 'T' := rfl

lemma ctdDot : colonToDash '.' = '.' := rfl

lemma ctdPlus : colonToDash '+' = '+' := rfl

/-- Decoding a colon-replaced `isoformat` rendering of a valid timestamp
recovers the timestamp: the filename determines the capture instant. -/
lemma decTs_safeTs (t : Timestamp) (hval : ValidTs t) :
    decTs (safeTs (isoformat t)) = some t := by
  obtain ⟨y, mo, d, hh, mi, s, u, ne, oh, om⟩ := t
  dsimp only [ValidTs] at hval
  obtain ⟨g1, g2, g3, g4, g5, g6, g7, g8, g9, g10, g11, g12⟩ := hval
  have b1 : y / 1000 < 10 := by omega
  have b2 : y / 100 % 10 < 10 := by omega
  have b3 : y / 10 % 10 < 10 := by omega
  have b4 : y % 10 < 10 := by omega
  have b5 : mo / 10 < 10 := by omega
  have b6 : mo % 10 < 10 := by omega
  have b7 : d / 10 < 10 := by omega
  have b8 : d % 10 < 10 := by omega
  have b9 : hh / 10 < 10 := by omega
  have b10 : hh % 10 < 10 := by omega
  have b11 : mi / 10 < 10 := by omega
  have b12 : mi % 10 < 10 := by omega
  have b13 : s / 10 < 10 := by omega
  have b14 : s % 10 < 10 := by omega
  have b15 : u / 100000 < 10 := by omega
  have b16 : u / 10000 % 10 < 10 := by omega
  have b17 : u / 1000 % 10 < 10 := by omega
  have b18 : u / 100 % 10 < 10 := by omega
  have b19 : u / 10 % 10 < 10 := by omega
  have b20 : u % 10 < 10 := by omega
  have b21 : oh / 10 < 10 := by omega
  have b22 : oh % 10 < 10 := by omega
  have b23 : om / 10 < 10 := by omega
  have b24 : om % 10 < 10 := by omega
  by_cases hu : u = 0 <;> cases ne <;>
    simp only [isoformat, safeTs, pad4, pad2, pad6, hu, if_true, if_false,
      ite_true, ite_false, Bool.false_eq_true, List.cons_append,
      List.nil_append, List.map_cons, List.map_nil, List.map_append,
      ctd_digCh b1, ctd_digCh b2, ctd_digCh b3, ctd_digCh b4,
      ctd_digCh b5, ctd_digCh b6, ctd_digCh b7, ctd_digCh b8,
      ctd_digCh b9, ctd_digCh b10, ctd_digCh b11, ctd_digCh b12,
      ctd_digCh b13, ctd_digCh b14, ctd_digCh b15, ctd_digCh b16,
      ctd_digCh b17, ctd_digCh b18, ctd_digCh b19, ctd_digCh b20,
      ctd_digCh b21, ctd_digCh b22, ctd_digCh b23, ctd_digCh b24,
      ctdColon, ctdDash, ctdT, ctdDot, ctdPlus] <;>
  simp only [decTs, Timestamp.mk.injEq, dec4, dec2, dec6,
      digVal_digCh b1, digVal_digCh b2, digVal_digCh b3, digVal_digCh b4,
      digVal_digCh b5, digVal_digCh b6, digVal_digCh b7, digVal_digCh b8,
      digVal_digCh b9, digVal_digCh b10, digVal_digCh b11, digVal_digCh b12,
      digVal_digCh b13, digVal_digCh b14, digVal_digCh b15, digVal_digCh b16,
      digVal_digCh b17, digVal_digCh b18, digVal_digCh b19, digVal_digCh b20,
      digVal_digCh b21, digVal_digCh b22, digVal_digCh b23, digVal_digCh b24,
      Option.some.injEq] <;>
  and_intros <;> first | omega | decide

/-! ## Claims -/

set_option maxRecDepth 8192 in
/-- C1: every Device Record field value the record-rendering loop
interpolates — the backend name, the thirteen structured field values, the
lsusb line, the text blob and the raw string — is passed through
`html.escape`, whose output contains none of the markup characters `<`, `>`
or `"`; a `<script>` value contributes exactly `&lt;script&gt;` to its
section and never the literal characters.  The claim speaks of the rendered
document, however: `generate_html_report` raises `NameError` on every call
(first conjunct; the single-braced CSS rule of src/usb.py line 206), so no
document is ever produced — the escaping property holds of the record
renderer the claim cites, and the template bug defeats it end to end. -/
theorem C1_escaped_interpolation :
    (generate_html_report [scriptRec] demoMeta false = Except.error ()) ∧
    (∀ v : Str, '<' ∉ escapeHtml v ∧ '>' ∉ escapeHtml v ∧ '"' ∉ escapeHtml v) ∧
    (escapeHtml ("<script>".data) = ("&lt;script&gt;".data)) ∧
    (∀ (i : Nat) (rec : Record) (k v : Str), WFRec rec → k ∈ canonicalKeys →
      rec k = some (some v) → v ≠ [] →
      escapeHtml v <:+: exceptStr (recordSection i rec)) ∧
    (∀ (i : Nat) (rec : Record) (v : Str), WFRec rec →
      rec backendKey = some (some v) →
      escapeHtml v <:+: exceptStr (recordSection i rec)) ∧
    (∀ (i : Nat) (rec : Record) (v : Str), WFRec rec →
      (rec lineKey = some (some v) ∨ rec textKey = some (some v) ∨
        rec rawKey = some (some v)) →
      escapeHtml v <:+: exceptStr (recordSection i rec)) ∧
    (¬ (("<script>".data) <:+: exceptStr (recordSection 1 scriptRec))) ∧
    (("&lt;script&gt;".data) <:+: exceptStr (recordSection 1 scriptRec)) := by
  refine ⟨rfl, escapeHtml_no_markup, rfl, ?_, ?_, ?_, by decide, by decide⟩
  · intro i rec k v hwf hk hv hne
    rw [recordSection_ok i rec hwf]
    show escapeHtml v <:+:
      (entryHeader i rec ++ fieldsPart rec ++ exceptStr (linePart rec) ++
        exceptStr (textPart rec) ++ exceptStr (rawPart rec) ++ ("</div>".data))
    have h1 : escapeHtml v <:+: fieldLine rec k := by
      rw [fieldLine_val rec k v hv hne]
      exact ⟨("<div><strong>".data) ++ escapeHtml k ++ (":</strong> ".data),
        ("</div>".data), by simp [fieldDiv, List.append_assoc]⟩
    have h2 : fieldLine rec k <:+: fieldsPart rec :=
      List.infix_of_mem_flatten (List.mem_map_of_mem (fieldLine rec) hk)
    exact (h1.trans h2).trans
      ⟨entryHeader i rec,
        exceptStr (linePart rec) ++ exceptStr (textPart rec) ++
          exceptStr (rawPart rec) ++ ("</div>".data),
        by simp [List.append_assoc]⟩
  · intro i rec v hwf hb
    rw [recordSection_ok i rec hwf]
    show escapeHtml v <:+:
      (entryHeader i rec ++ fieldsPart rec ++ exceptStr (linePart rec) ++
        exceptStr (textPart rec) ++ exceptStr (rawPart rec) ++ ("</div>".data))
    have h1 : escapeHtml v <:+: entryHeader i rec := by
      unfold entryHeader
      rw [hb]
      exact ⟨("<div class=\"record\"><strong>Entrée #".data) ++ natStr i ++
        (" — backend: ".data), ("</strong><br>".data),
        by simp [Option.join, sOf, List.append_assoc]⟩
    exact h1.trans
      ⟨[], fieldsPart rec ++ exceptStr (linePart rec) ++
        exceptStr (textPart rec) ++ exceptStr (rawPart rec) ++ ("</div>".data),
        by simp [List.append_assoc]⟩
  · intro i rec v hwf hd
    rw [recordSection_ok i rec hwf]
    show escapeHtml v <:+:
      (entryHeader i rec ++ fieldsPart rec ++ exceptStr (linePart rec) ++
        exceptStr (textPart rec) ++ exceptStr (rawPart rec) ++ ("</div>".data))
    rcases hd with hv | hv | hv
    · have h0 : exceptStr (linePart rec) =
          ("<div><strong>lsusb line:</strong> <code>".data) ++ escapeHtml v ++
            ("</code></div>".data) := by
        unfold linePart; rw [hv]; rfl
      exact ⟨entryHeader i rec ++ fieldsPart rec ++
          ("<div><strong>lsusb line:</strong> <code>".data),
        ("</code></div>".data) ++ exceptStr (textPart rec) ++
          exceptStr (rawPart rec) ++ ("</div>".data),
        by rw [h0]; simp [List.append_assoc]⟩
    · have h0 : exceptStr (textPart rec) =
          ("<div><strong>Text output:</strong><pre>".data) ++ escapeHtml v ++
            ("</pre></div>".data) := by
        unfold textPart; rw [hv]; rfl
      exact ⟨entryHeader i rec ++ fieldsPart rec ++ exceptStr (linePart rec) ++
          ("<div><strong>Text output:</strong><pre>".data),
        ("</pre></div>".data) ++ exceptStr (rawPart rec) ++ ("</div>".data),
        by rw [h0]; simp [List.append_assoc]⟩
    · have h0 : exceptStr (rawPart rec) =
          ("<div><strong>raw:</strong> <code>".data) ++ escapeHtml v ++
            ("</code></div>".data) := by
        unfold rawPart; rw [hv]; rfl
      exact ⟨entryHeader i rec ++ fieldsPart rec ++ exceptStr (linePart rec) ++
          exceptStr (textPart rec) ++ ("<div><strong>raw:</strong> <code>".data),
        ("</code></div>".data) ++ ("</div>".data),
        by rw [h0]; simp [List.append_assoc]⟩

/-- Witness for C1 at the `<script>` manufacturer record. -/
theorem C1_escaped_interpolation_witness :
    escapeHtml ("<script>".data) <:+: exceptStr (recordSection 1 scriptRec) :=
  C1_escaped_interpolation.2.2.2.1 1 scriptRec manufacturerKey
    ("<script>".data) (by decide) (by decide) rfl (by decide)

/-- C2: the claim states the renderer returns normally with a device-count
heading equal to `len(C)`; in fact `generate_html_report` raises `NameError`
on every capture set and every metadata (the single-braced `.record` CSS
rule of src/usb.py line 206 is an f-string replacement field evaluating the
undefined name `margin`), so the renderer never returns normally and no
heading is ever emitted. -/
theorem C2_renderer_never_returns (records : List Record) (meta : RunMeta)
    (w : Bool) : generate_html_report records meta w = Except.error () :=
  generate_html_report_raises records meta w

/-- C3: none of the four probes ever raises to its caller: for every host
state — libraries present or absent, enumerations or external commands
failing — each probe returns normally with a (possibly empty) list of
records. -/
theorem C3_probes_never_raise (e : ScanEnv) :
    (∃ l, scan_with_pyusb e = Except.ok l) ∧
    (∃ l, scan_linux e = Except.ok l) ∧
    (∃ l, scan_macos e = Except.ok l) ∧
    (∃ l, scan_windows e = Except.ok l) :=
  ⟨⟨_, rfl⟩, ⟨_, rfl⟩, ⟨_, rfl⟩, ⟨_, rfl⟩⟩

/-- C4: `scan_all` returns exactly the concatenation of the fixed per-OS
probe outputs in probe-list order with no deduplication: pyudev then lsusb
then pyusb on Linux, system_profiler then pyusb on Darwin, WMI then wmic
then pyusb on Windows, and pyusb alone on any other OS string. -/
theorem C4_capture_concatenation (h : HostEnv) (e : ScanEnv) :
    (h.system = ("Linux".data) →
      scan_all h e = Except.ok (udevPart e ++ lsusbPart e ++ pyusbRecords e)) ∧
    (h.system = ("Darwin".data) →
      scan_all h e = Except.ok (profilerPart e ++ pyusbRecords e)) ∧
    (h.system = ("Windows".data) →
      scan_all h e = Except.ok (wmiPart e ++ wmicPart e ++ pyusbRecords e)) ∧
    (h.system ≠ ("Linux".data) → h.system ≠ ("Darwin".data) →
      h.system ≠ ("Windows".data) →
      scan_all h e = Except.ok (pyusbRecords e)) := by
  refine ⟨?_, ?_, ?_, ?_⟩
  · intro hs; unfold scan_all; rw [if_pos hs]; rfl
  · intro hs
    have hL : ¬ h.system = ("Linux".data) := by rw [hs]; decide
    unfold scan_all; rw [if_neg hL, if_pos hs]; rfl
  · intro hs
    have hL : ¬ h.system = ("Linux".data) := by rw [hs]; decide
    have hD : ¬ h.system = ("Darwin".data) := by rw [hs]; decide
    unfold scan_all; rw [if_neg hL, if_neg hD, if_pos hs]; rfl
  · intro hL hD hW
    unfold scan_all; rw [if_neg hL, if_neg hD, if_neg hW]; rfl

/-- Witness for C4 on a Linux host identity. -/
theorem C4_capture_concatenation_witness :
    scan_all demoHost demoScanEnv =
      Except.ok (udevPart demoScanEnv ++ lsusbPart demoScanEnv ++
        pyusbRecords demoScanEnv) :=
  (C4_capture_concatenation demoHost demoScanEnv).1 rfl

/-- C5: the artifact filename — the fixed prefix, the ISO timestamp with
every colon replaced by a dash, and the fixed extension — is an injective
function of the capture timestamp: distinct timestamps give distinct
filenames, so no cycle would overwrite another cycle's artifact. -/
theorem C5_filename_determined_by_timestamp (t1 t2 : Timestamp)
    (h1 : ValidTs t1) (h2 : ValidTs t2) (hne : t1 ≠ t2) :
    mkFilename (isoformat t1) ≠ mkFilename (isoformat t2) := by
  intro heq
  apply hne
  unfold mkFilename at heq
  have hmid := List.append_cancel_left (List.append_cancel_right heq)
  have r1 := decTs_safeTs t1 h1
  rw [hmid, decTs_safeTs t2 h2] at r1
  exact (Option.some.inj r1).symm

/-- Witness for C5 at two timestamps one second apart. -/
theorem C5_filename_determined_by_timestamp_witness :
    mkFilename (isoformat demoTs) ≠ mkFilename (isoformat demoTs2) :=
  C5_filename_determined_by_timestamp demoTs demoTs2
    (by decide) (by decide) (by decide)

/-- Counterexample for C6: in a concrete run the program crashes inside the
first render (the template `NameError`), before the single `input()` call of
the loop is ever reached — `main` has no prompt for an operator name,
surname or workstation anywhere, so no identity prompt precedes rendering
and no document embedding an operator identity exists. -/
theorem C6_cex_no_identity_prompt :
    mainProgram demoHost demoClock [("o".data)] = Except.error () :=
  mainLoop_error demoHost demoClock 0 [("o".data)]

set_option maxRecDepth 8192 in
/-- C6 as amended: the header template's metadata block interpolates the
escaped capture date, time, timezone and host OS string, and the device
count directly follows the summary literal — but no operator identity or
workstation: `main` consumes no input at all before rendering (its outcome
does not depend on the input stream, because the renderer raises before the
only `input()` call). -/
theorem C6_metadata_without_identity (meta : RunMeta) (n : Nat) :
    FPart.expr (Except.ok (escapeHtml meta.date)) ∈ headerFString meta n ∧
    FPart.expr (Except.ok (escapeHtml meta.time)) ∈ headerFString meta n ∧
    FPart.expr (Except.ok (escapeHtml meta.tz)) ∈ headerFString meta n ∧
    FPart.expr (Except.ok (escapeHtml meta.system)) ∈ headerFString meta n ∧
    (headerFString meta n)[16]? =
      some (FPart.lit ((")\n  </div>\n  <h2>Résumé des éléments trouvés : ".data))) ∧
    (headerFString meta n)[17]? = some (FPart.expr (Except.ok (natStr n))) ∧
    (∀ (h : HostEnv) (clock : Nat → CycleEnv) (inputs : List Str),
      mainProgram h clock inputs = mainProgram h clock []) := by
  refine ⟨?_, ?_, ?_, ?_, rfl, rfl, ?_⟩
  · unfold headerFString; simp
  · unfold headerFString; simp
  · unfold headerFString; simp
  · unfold headerFString; simp
  · intro h clock inputs
    rw [mainProgram, mainProgram, mainLoop_error, mainLoop_error]

/-- Counterexample for C7: a concrete run ends with the renderer's exception
propagating out of `main` uncaught — nothing catches it at the process
boundary and no acknowledgment pause happens. -/
theorem C7_cex_uncaught_crash :
    mainProgram demoHost demoClock [("n".data)] = Except.error () :=
  mainLoop_error demoHost demoClock 0 [("n".data)]

/-- C7 as amended: there is no handler at the process boundary
(`if __name__ == "__main__": main()` is a bare call and `main` contains no
`try`), so an exception uncaught by inner layers propagates out of the
program; indeed every run terminates this way at the first render. -/
theorem C7_exception_escapes_process_boundary (h : HostEnv)
    (clock : Nat → CycleEnv) (inputs : List Str) :
    mainProgram h clock inputs = Except.error () :=
  mainLoop_error h clock 0 inputs

/-- Counterexample for C8: none of the three `subprocess.run` call sites
passes a timeout — the `timeout` keyword is absent from each invocation, so
no external command is bounded by a fixed timeout. -/
theorem C8_cex_no_timeout :
    lsusbCall.timeout = none ∧ system_profilerCall.timeout = none ∧
      wmicCall.timeout = none :=
  ⟨rfl, rfl, rfl⟩

/-- C8 as amended: external command invocations carry no timeout at all;
a failing invocation (however it fails) is confined to its own probe — the
capture still returns every other probe's records. -/
theorem C8_no_timeout_and_failure_isolation :
    (lsusbCall.timeout = none ∧ system_profilerCall.timeout = none ∧
      wmicCall.timeout = none) ∧
    (∀ e : ScanEnv, e.runProc lsusbCall = Except.error () →
      scan_linux e = Except.ok (udevPart e ++ pyusbRecords e)) ∧
    (∀ e : ScanEnv, e.runProc system_profilerCall = Except.error () →
      scan_macos e = Except.ok (pyusbRecords e)) ∧
    (∀ e : ScanEnv, e.runProc wmicCall = Except.error () →
      scan_windows e = Except.ok (wmiPart e ++ pyusbRecords e)) := by
  refine ⟨⟨rfl, rfl, rfl⟩, ?_, ?_, ?_⟩
  · intro e he
    have h0 : lsusbPart e = [] := by unfold lsusbPart; rw [he]; rfl
    unfold scan_linux scan_with_pyusb
    rw [h0]
    simp [Except.bind]
  · intro e he
    have h0 : profilerPart e = [] := by unfold profilerPart; rw [he]; rfl
    unfold scan_macos scan_with_pyusb
    rw [h0]
    simp [Except.bind]
  · intro e he
    have h0 : wmicPart e = [] := by unfold wmicPart; rw [he]; rfl
    unfold scan_windows scan_with_pyusb
    rw [h0]
    simp [Except.bind]

/-- Witness for C8 on a host whose external commands all fail. -/
theorem C8_no_timeout_and_failure_isolation_witness :
    scan_linux demoScanEnv =
      Except.ok (udevPart demoScanEnv ++ pyusbRecords demoScanEnv) :=
  C8_no_timeout_and_failure_isolation.2.1 demoScanEnv rfl

/-- C9: a record's section carries a labeled line exactly for the structured
fields that are present and truthy — with only `vendor_id` and `product_id`
populated, the section is the entry header, those two labeled lines and the
closing tag, and nothing else.  The claim's end-to-end reading fails for the
same reason as C2: `generate_html_report` raises before rendering any record
(first conjunct), so no document ever contains the section. -/
theorem C9_only_present_fields_render :
    (generate_html_report [vpRec] demoMeta false = Except.error ()) ∧
    (∀ (i : Nat) (rec : Record) (vid pid : Str),
      rec vendorIdKey = some (some vid) → rec productIdKey = some (some pid) →
      vid ≠ [] → pid ≠ [] →
      (∀ k, k ∈ canonicalKeys → k ≠ vendorIdKey → k ≠ productIdKey →
        truthyAt rec k = false) →
      rec lineKey = none → rec textKey = none → rec rawKey = none →
      recordSection i rec =
        Except.ok (entryHeader i rec ++ fieldDiv vendorIdKey vid ++
          fieldDiv productIdKey pid ++ ("</div>".data))) := by
  refine ⟨rfl, ?_⟩
  intro i rec vid pid hv hp hnv hnp hothers hl ht hr
  have hwf : WFRec rec := ⟨by simp [hl], by simp [ht], by simp [hr]⟩
  rw [recordSection_ok i rec hwf]
  have e1 : exceptStr (linePart rec) = [] := by unfold linePart; rw [hl]; rfl
  have e2 : exceptStr (textPart rec) = [] := by unfold textPart; rw [ht]; rfl
  have e3 : exceptStr (rawPart rec) = [] := by unfold rawPart; rw [hr]; rfl
  have f1 := fieldLine_val rec vendorIdKey vid hv hnv
  have f2 := fieldLine_val rec productIdKey pid hp hnp
  have f3 := fieldLine_falsy rec manufacturerKey
    (hothers manufacturerKey (by decide) (by decide) (by decide))
  have f4 := fieldLine_falsy rec productKey
    (hothers productKey (by decide) (by decide) (by decide))
  have f5 := fieldLine_falsy rec serialNumberKey
    (hothers serialNumberKey (by decide) (by decide) (by decide))
  have f6 := fieldLine_falsy rec nameKey
    (hothers nameKey (by decide) (by decide) (by decide))
  have f7 := fieldLine_falsy rec deviceIdKey
    (hothers deviceIdKey (by decide) (by decide) (by decide))
  have f8 := fieldLine_falsy rec pnpDeviceIdKey
    (hothers pnpDeviceIdKey (by decide) (by decide) (by decide))
  have f9 := fieldLine_falsy rec serviceKey
    (hothers serviceKey (by decide) (by decide) (by decide))
  have f10 := fieldLine_falsy rec devnodeKey
    (hothers devnodeKey (by decide) (by decide) (by decide))
  have f11 := fieldLine_falsy rec sysPathKey
    (hothers sysPathKey (by decide) (by decide) (by decide))
  have f12 := fieldLine_falsy rec busKey
    (hothers busKey (by decide) (by decide) (by decide))
  have f13 := fieldLine_falsy rec addressKey
    (hothers addressKey (by decide) (by decide) (by decide))
  rw [e1, e2, e3]
  unfold fieldsPart canonicalKeys
  simp only [List.map_cons, List.map_nil, List.flatten_cons, List.flatten_nil]
  rw [f1, f2, f3, f4, f5, f6, f7, f8, f9, f10, f11, f12, f13]
  simp [List.append_assoc]

/-- Witness for C9 at the spec's scenario-2 record. -/
theorem C9_only_present_fields_render_witness :
    recordSection 1 vpRec =
      Except.ok (entryHeader 1 vpRec ++ fieldDiv vendorIdKey ("0x1d6b".data) ++
        fieldDiv productIdKey ("0x0002".data) ++ ("</div>".data)) :=
  C9_only_present_fields_render.2 1 vpRec ("0x1d6b".data) ("0x0002".data)
    rfl rfl (by decide) (by decide) (by decide) rfl rfl rfl

/-- C10: a record's section depends only on the seventeen keys the loop
reads (`backend`, the thirteen structured keys, `line`, `text`, `raw`) — any
other key is never rendered and the record mapping carries no key order of
its own — and the structured field lines appear in the fixed canonical
source order. -/
theorem C10_field_order_and_key_scope :
    (∀ (i : Nat) (rec rec2 : Record),
      (∀ k, k ∈ renderedKeys → rec k = rec2 k) →
      recordSection i rec = recordSection i rec2) ∧
    (∀ rec : Record, fieldsPart rec =
      fieldLine rec vendorIdKey ++ fieldLine rec productIdKey ++
      fieldLine rec manufacturerKey ++ fieldLine rec productKey ++
      fieldLine rec serialNumberKey ++ fieldLine rec nameKey ++
      fieldLine rec deviceIdKey ++ fieldLine rec pnpDeviceIdKey ++
      fieldLine rec serviceKey ++ fieldLine rec devnodeKey ++
      fieldLine rec sysPathKey ++ fieldLine rec busKey ++
      fieldLine rec addressKey) := by
  constructor
  · intro i rec rec2 hag
    have hb : rec backendKey = rec2 backendKey := hag backendKey (by decide)
    have hl : rec lineKey = rec2 lineKey := hag lineKey (by decide)
    have ht : rec textKey = rec2 textKey := hag textKey (by decide)
    have hr : rec rawKey = rec2 rawKey := hag rawKey (by decide)
    have hfields : fieldsPart rec = fieldsPart rec2 := by
      unfold fieldsPart
      refine congrArg List.flatten (List.map_congr_left ?_)
      intro k hk
      have hkk : rec k = rec2 k :=
        hag k (List.mem_cons_of_mem _ (List.mem_append_left _ hk))
      unfold fieldLine truthyAt
      rw [hkk]
    have hentry : entryHeader i rec = entryHeader i rec2 := by
      unfold entryHeader; rw [hb]
    have hline : linePart rec = linePart rec2 := by unfold linePart; rw [hl]
    have htext : textPart rec = textPart rec2 := by unfold textPart; rw [ht]
    have hraw : rawPart rec = rawPart rec2 := by unfold rawPart; rw [hr]
    unfold recordSection
    rw [hentry, hfields, hline, htext, hraw]
  · intro rec
    unfold fieldsPart canonicalKeys
    simp [List.append_assoc]

/-- Witness for C10: adding a key outside the rendered set changes nothing. -/
theorem C10_field_order_and_key_scope_witness :
    recordSection 1 extraRecA = recordSection 1 extraRecB :=
  C10_field_order_and_key_scope.1 1 extraRecA extraRecB (by decide)

end UsbScan
